import Mathlib

/-!
Shallow embedding of the Voice Detection API (the active, final section of
main.py: the crash-proof Phase 2 service).  The earlier phases of the file
are dead code inside a module docstring and are not modelled.

Machine reals (Python floats) are modelled as rationals.  JSON dictionaries
produced by json.loads are modelled as association lists with unique keys.
The opaque external classifier (the Gemini SDK call together with the
json.loads of its fence-stripped reply text) is modelled as an oracle value
of type ExtOutcome: either the call raised, or the reply text failed to
parse as JSON, or it parsed to a dictionary.
-/

namespace VoiceAPI

/-- JSON values as returned by json.loads (and as stored in response
dictionaries).  Arrays and objects are collapsed to markers: the service
never inspects their contents, only their (non-string, non-numeric) kind. -/
inductive JVal where
  | jstr (s : String)
  | jnum (q : ℚ)
  | jbool (b : Bool)
  | jnull
  | jarr
  | jobj
deriving DecidableEq

/-- A JSON object: association list with unique keys (json.loads yields
a dict, so key uniqueness is assumed for oracle inputs). -/
abbrev Jdict := List (String × JVal)

/-- Numeric value of a list of decimal digit characters. -/
def natOfDigits (l : List Char) : ℚ :=
  l.foldl (fun acc c => acc * 10 + ((c.toNat - 48 : ℕ) : ℚ)) 0

/-- Python str.strip() with no argument: drop whitespace from both ends. -/
def pyStrip (l : List Char) : List Char :=
  ((l.dropWhile Char.isWhitespace).reverse.dropWhile Char.isWhitespace).reverse

/-- Python str.lower() (ASCII range; the strings this service compares are
ASCII). -/
def pyLower (s : String) : String :=
  ⟨s.data.map Char.toLower⟩

/-- Model of the Python builtin float(s) on strings, restricted to plain
decimal literals: optional surrounding whitespace, optional sign, digits
with at most one decimal point and at least one digit.  (Python also
accepts exponents, inf and nan; no value in this development depends on
those forms.)  Returns none when float(s) would raise ValueError. -/
def pyFloatOfString (s : String) : Option ℚ :=
  let t := pyStrip s.data
  let (sign, b) : ℚ × List Char :=
    match t with
    | '-' :: rest => (-1, rest)
    | '+' :: rest => (1, rest)
    | l => (1, l)
  let intPart := b.takeWhile (fun c => c.isDigit)
  let rest := b.dropWhile (fun c => c.isDigit)
  match rest with
  | [] => if intPart.isEmpty then none else some (sign * natOfDigits intPart)
  | '.' :: frac =>
      if frac.all (fun c => c.isDigit) && !(intPart.isEmpty && frac.isEmpty) then
        some (sign * (natOfDigits intPart + natOfDigits frac / (10 : ℚ) ^ frac.length))
      else none
  | _ => none

/-- Model of the Python builtin float(x) on a JSON-derived value:
numbers convert to themselves, booleans to 0/1, numeric strings parse;
float(None), float(list), float(dict) raise TypeError (none). -/
def pyFloat : JVal → Option ℚ
  | .jstr s => pyFloatOfString s
  | .jnum q => some q
  | .jbool b => some (if b then 1 else 0)
  | _ => none

/-- Characters of the standard base64 alphabet. -/
def isB64Char (c : Char) : Bool :=
  ('A' ≤ c && c ≤ 'Z') || ('a' ≤ c && c ≤ 'z') || ('0' ≤ c && c ≤ '9') ||
    c == '+' || c == '/'

/-- One pass of CPython binascii.a2b_base64 in legacy (non-strict) mode,
tracking the position inside the current quad and the count of pending
padding characters.  Non-alphabet characters are skipped; a padding run
that completes a quad ends decoding successfully; leftover data characters
at the end of input are an error (binascii.Error). -/
def a2bBase64Ok : List Char → Nat → Nat → Bool
  | [], quadPos, _ => quadPos == 0
  | c :: rest, quadPos, pads =>
    if c == '=' then
      if 2 ≤ quadPos then
        if 4 ≤ quadPos + (pads + 1) then true
        else a2bBase64Ok rest quadPos (pads + 1)
      else a2bBase64Ok rest quadPos pads
    else if isB64Char c then a2bBase64Ok rest ((quadPos + 1) % 4) 0
    else a2bBase64Ok rest quadPos pads

/-- Whether base64.b64decode(s) succeeds on a str argument: the string must
be pure ASCII (b64decode first encodes it as ASCII) and the legacy
binascii decoding loop must not error. -/
def b64decodeOk (s : String) : Bool :=
  s.data.all (fun c => c.toNat < 128) && a2bBase64Ok s.data 0 0

/-- The filesystem as seen by this service: a fresh-name counter and the
list of live temporary files (identified by the counter value at creation,
standing for the unique name produced by tempfile.NamedTemporaryFile). -/
structure FS where
  counter : Nat
  live : List Nat
deriving DecidableEq

/-- tempfile.NamedTemporaryFile(delete=False): creates a fresh file and
returns its name. -/
def mkTempFile (fs : FS) : Nat × FS :=
  (fs.counter, ⟨fs.counter + 1, fs.counter :: fs.live⟩)

/-- os.remove: deletes the file, raising FileNotFoundError when absent. -/
def os_remove (p : Nat) (fs : FS) : Except String FS :=
  if fs.live.contains p then .ok ⟨fs.counter, fs.live.erase p⟩
  else .error "FileNotFoundError"

/-- cleanup(path) from main.py: try os.remove(path) except Exception pass.
Total: any error from the removal is swallowed. -/
def cleanup (p : Nat) (fs : FS) : FS :=
  match os_remove p fs with
  | .ok fs2 => fs2
  | .error _ => fs

/-- fastapi.HTTPException: an HTTP status code and a detail string. -/
structure HTTPException where
  statusCode : Nat
  detail : String
deriving DecidableEq

def VALID_API_KEY : String := "123456"

def SUPPORTED_LANGUAGES : List String :=
  ["Tamil", "English", "Hindi", "Malayalam", "Telugu"]

/-- VoiceDetectionRequest: the pydantic request body (three str fields,
already validated for presence and type by the framework). -/
structure VoiceDetectionRequest where
  language : String
  audioFormat : String
  audioBase64 : String
deriving DecidableEq

/-- Outcome of the opaque external classifier interaction inside
analyze_audio_safely.  raiseErr: any exception from GenerativeModel /
upload_file / generate_content / response.text (network error, timeout,
SDK fault).  parseFail: a text reply that json.loads rejects even after
the markdown fences are stripped.  parsed d: json.loads produced the
dictionary d. -/
inductive ExtOutcome where
  | raiseErr
  | parseFail
  | parsed (d : Jdict)
deriving DecidableEq

/-- The deterministic substitute result synthesized by the except branch of
analyze_audio_safely. -/
def fallbackResult (language : String) : Jdict :=
  [("status", .jstr "success"),
   ("language", .jstr language),
   ("classification", .jstr "HUMAN"),
   ("confidenceScore", .jnum (11 / 20 : ℚ)),
   ("explanation", .jstr "Voice exhibits mixed natural and synthetic characteristics")]

/-- analyze_audio_safely(file_path, language) from main.py.  The whole body
is wrapped in try/except Exception, so a KeyError on a missing key, a
ValueError from the classification or confidence checks, a TypeError from
float(), and any SDK or parse failure all land in the fallback.  Note that
only the classification and confidenceScore keys are ever inspected: the
status, language and explanation fields of a parsed reply are NOT checked
and the accepted dictionary is returned unchanged. -/
def analyze_audio_safely (ext : ExtOutcome) (language : String) : Jdict :=
  match ext with
  | .raiseErr => fallbackResult language
  | .parseFail => fallbackResult language
  | .parsed data =>
    match List.lookup "classification" data with
    | none => fallbackResult language
    | some c =>
      if c = .jstr "AI_GENERATED" ∨ c = .jstr "HUMAN" then
        match List.lookup "confidenceScore" data with
        | none => fallbackResult language
        | some cv =>
          match pyFloat cv with
          | none => fallbackResult language
          | some confidence =>
            if 0 ≤ confidence ∧ confidence ≤ 1 then data
            else fallbackResult language
      else fallbackResult language

/-- decode_audio(base64_audio) from main.py: b64decode first (raising
HTTPException 422 on failure, before any file is created), then write the
bytes to a fresh temporary file and return its name. -/
def decode_audio (base64_audio : String) (fs : FS) :
    Except HTTPException (Nat × FS) :=
  if b64decodeOk base64_audio then .ok (mkTempFile fs)
  else .error ⟨422, "Invalid Base64 audio"⟩

/-- detect_voice from main.py: credential check, language check, format
check, decode, then analyze under try/finally cleanup.  The result is the
route's outcome (an HTTPException or the returned dictionary) paired with
the final filesystem. -/
def detect_voice (x_api_key : Option String) (body : VoiceDetectionRequest)
    (ext : ExtOutcome) (fs : FS) : Except HTTPException Jdict × FS :=
  if x_api_key ≠ some VALID_API_KEY then
    (.error ⟨401, "Invalid API key"⟩, fs)
  else if ¬ SUPPORTED_LANGUAGES.contains body.language then
    (.error ⟨422, "Unsupported language"⟩, fs)
  else if pyLower body.audioFormat ≠ "mp3" then
    (.error ⟨422, "Only MP3 supported"⟩, fs)
  else
    match decode_audio body.audioBase64 fs with
    | .error e => (.error e, fs)
    | .ok (temp_path, fs1) =>
      (.ok (analyze_audio_safely ext body.language), cleanup temp_path fs1)

/-- strField d k: the value of field k when it is a JSON string. -/
def strField (d : Jdict) (k : String) : Option String :=
  match List.lookup k d with
  | some (.jstr s) => some s
  | _ => none

/-- The FastAPI response-model validation of the dictionary returned by the
route against VoiceDetectionResponse: four str fields plus a float field,
coerced, filtered to the declared fields.  A dictionary that fails this
validation raises a ResponseValidationError inside the framework, which the
registered global exception handler turns into a 500. -/
def validateResponse (d : Jdict) : Option Jdict :=
  (strField d "status").bind fun st =>
  (strField d "language").bind fun lang =>
  (strField d "classification").bind fun cls =>
  ((List.lookup "confidenceScore" d).bind pyFloat).bind fun q =>
  (strField d "explanation").bind fun ex =>
  some [("status", .jstr st), ("language", .jstr lang),
        ("classification", .jstr cls), ("confidenceScore", .jnum q),
        ("explanation", .jstr ex)]

/-- Body produced by the framework's built-in handler for a raised
HTTPException: a bare detail object.  (The service registers a handler
only for Exception; HTTPException keeps its FastAPI default handler.) -/
def httpExceptionBody (e : HTTPException) : Jdict :=
  [("detail", .jstr e.detail)]

/-- Body produced by the registered global exception handler (any
unhandled exception, a response-validation failure included). -/
def internalErrorBody : Jdict :=
  [("status", .jstr "error"),
   ("message", .jstr "Internal server error during voice analysis")]

/-- A wire-level HTTP response: status code and JSON body. -/
structure HttpResponse where
  code : Nat
  body : Jdict
deriving DecidableEq

/-- The full service boundary for POST /api/voice-detection: run the route,
turn a raised HTTPException into its default detail body, validate a
returned dictionary against the response model (failure becoming a 500
from the global handler), and pair with the final filesystem. -/
def handleRequest (x_api_key : Option String) (body : VoiceDetectionRequest)
    (ext : ExtOutcome) (fs : FS) : HttpResponse × FS :=
  match detect_voice x_api_key body ext fs with
  | (.error e, fs2) => (⟨e.statusCode, httpExceptionBody e⟩, fs2)
  | (.ok d, fs2) =>
    match validateResponse d with
    | some d2 => (⟨200, d2⟩, fs2)
    | none => (⟨500, internalErrorBody⟩, fs2)

/-- The acceptance predicate the gateway applies to a parsed reply: the
classification field is present and exactly AI_GENERATED or HUMAN, and the
confidenceScore field is present, float-convertible, and in [0, 1]. -/
def replyAccepted (d : Jdict) : Bool :=
  match List.lookup "classification" d with
  | none => false
  | some c =>
    if c = .jstr "AI_GENERATED" ∨ c = .jstr "HUMAN" then
      match List.lookup "confidenceScore" d with
      | none => false
      | some cv =>
        match pyFloat cv with
        | none => false
        | some q => decide (0 ≤ q ∧ q ≤ 1)
    else false

/-- External-classification failure in any of the forms the fallback
absorbs: the call raised, the reply did not parse, or the parsed reply is
rejected by the gateway's checks. -/
def extFailed : ExtOutcome → Bool
  | .raiseErr => true
  | .parseFail => true
  | .parsed d => !replyAccepted d

/-- The uniform error body shape of the specification: status field equal
to the string error, plus a string message field. -/
def errorShape (d : Jdict) : Bool :=
  (List.lookup "status" d == some (.jstr "error")) &&
    match List.lookup "message" d with
    | some (.jstr _) => true
    | _ => false

/-- A classifier reply that passes every gateway check but declares a
language different from any the caller can declare: exercises the
unchecked language pass-through of the success path. -/
def frenchReply : Jdict :=
  [("status", .jstr "success"), ("language", .jstr "French"),
   ("classification", .jstr "AI_GENERATED"), ("confidenceScore", .jnum 1),
   ("explanation", .jstr "flat prosody and uniform pacing")]

/-- A classifier reply that is valid JSON with a valid classification and
confidence but missing the status, language and explanation fields. -/
def missingFieldsReply : Jdict :=
  [("classification", .jstr "HUMAN"), ("confidenceScore", .jnum 1)]

/-- A classifier reply accepted by the gateway whose status field is not
the string success. -/
def oddStatusReply : Jdict :=
  [("status", .jstr "processing"), ("language", .jstr "English"),
   ("classification", .jstr "HUMAN"), ("confidenceScore", .jnum 1),
   ("explanation", .jstr "steady prosody")]

/-! ### Characterization lemmas -/

theorem analyze_eq_of_parsed (d : Jdict) (language : String) :
    analyze_audio_safely (.parsed d) language =
      if replyAccepted d = true then d else fallbackResult language := by
  unfold analyze_audio_safely replyAccepted
  rcases hc : List.lookup "classification" d with _ | c
  · simp [hc]
  · rcases hcv : List.lookup "confidenceScore" d with _ | cv
    · by_cases h1 : c = .jstr "AI_GENERATED" ∨ c = .jstr "HUMAN" <;>
        simp [hc, hcv, h1]
    · rcases hq : pyFloat cv with _ | q
      · by_cases h1 : c = .jstr "AI_GENERATED" ∨ c = .jstr "HUMAN" <;>
          simp [hc, hcv, hq, h1]
      · by_cases h1 : c = .jstr "AI_GENERATED" ∨ c = .jstr "HUMAN" <;>
          by_cases hb : 0 ≤ q ∧ q ≤ 1 <;>
            simp [hc, hcv, hq, h1, hb]

theorem analyze_of_extFailed (ext : ExtOutcome) (language : String)
    (h : extFailed ext = true) :
    analyze_audio_safely ext language = fallbackResult language := by
  cases ext with
  | raiseErr => rfl
  | parseFail => rfl
  | parsed d =>
    have hr : replyAccepted d = false := by simpa [extFailed] using h
    rw [analyze_eq_of_parsed, hr]
    simp

theorem analyze_of_accepted (d : Jdict) (language : String)
    (h : replyAccepted d = true) :
    analyze_audio_safely (.parsed d) language = d := by
  rw [analyze_eq_of_parsed, h]
  simp

theorem validateResponse_fallback (language : String) :
    validateResponse (fallbackResult language) = some (fallbackResult language) := rfl

theorem cleanup_fresh (fs : FS) :
    cleanup fs.counter ⟨fs.counter + 1, fs.counter :: fs.live⟩ =
      ⟨fs.counter + 1, fs.live⟩ := by
  unfold cleanup os_remove
  simp

/-- Closed form of the whole service boundary: the three validator checks,
the decode check, then the gateway result validated against the response
model, with the temporary file created and released. -/
theorem handleRequest_eq (key : Option String) (body : VoiceDetectionRequest)
    (ext : ExtOutcome) (fs : FS) :
    handleRequest key body ext fs =
      if key ≠ some VALID_API_KEY then
        (⟨401, [("detail", .jstr "Invalid API key")]⟩, fs)
      else if ¬ SUPPORTED_LANGUAGES.contains body.language then
        (⟨422, [("detail", .jstr "Unsupported language")]⟩, fs)
      else if pyLower body.audioFormat ≠ "mp3" then
        (⟨422, [("detail", .jstr "Only MP3 supported")]⟩, fs)
      else if ¬ b64decodeOk body.audioBase64 then
        (⟨422, [("detail", .jstr "Invalid Base64 audio")]⟩, fs)
      else
        match validateResponse (analyze_audio_safely ext body.language) with
        | some d2 => (⟨200, d2⟩, ⟨fs.counter + 1, fs.live⟩)
        | none => (⟨500, internalErrorBody⟩, ⟨fs.counter + 1, fs.live⟩) := by
  unfold handleRequest detect_voice decode_audio
  by_cases h1 : key = some VALID_API_KEY
  · by_cases h2 : body.language ∈ SUPPORTED_LANGUAGES
    · by_cases h3 : pyLower body.audioFormat = "mp3"
      · by_cases h4 : b64decodeOk body.audioBase64
        · rcases hv : validateResponse (analyze_audio_safely ext body.language)
            with _ | d2 <;>
            simp [h1, h2, h3, h4, hv, mkTempFile, cleanup_fresh, httpExceptionBody]
        · simp [h1, h2, h3, h4, httpExceptionBody]
      · simp [h1, h2, h3, httpExceptionBody]
    · simp [h1, h2, httpExceptionBody]
  · simp [h1, httpExceptionBody]

theorem handleRequest_200_inv (key : Option String) (body : VoiceDetectionRequest)
    (ext : ExtOutcome) (fs : FS) (d : Jdict)
    (h : (handleRequest key body ext fs).1 = ⟨200, d⟩) :
    validateResponse (analyze_audio_safely ext body.language) = some d := by
  rw [handleRequest_eq] at h
  by_cases h1 : key = some VALID_API_KEY
  · by_cases h2 : body.language ∈ SUPPORTED_LANGUAGES
    · by_cases h3 : pyLower body.audioFormat = "mp3"
      · by_cases h4 : b64decodeOk body.audioBase64
        · rcases hv : validateResponse (analyze_audio_safely ext body.language)
            with _ | d2 <;> simp [h1, h2, h3, h4, hv] at h
          rw [h]
        · simp [h1, h2, h3, h4] at h
      · simp [h1, h2, h3] at h
    · simp [h1, h2] at h
  · simp [h1] at h

theorem handleRequest_of_extFailed (key : Option String)
    (body : VoiceDetectionRequest) (ext : ExtOutcome) (fs : FS)
    (hkey : key = some VALID_API_KEY)
    (hlang : body.language ∈ SUPPORTED_LANGUAGES)
    (hfmt : pyLower body.audioFormat = "mp3")
    (hb64 : b64decodeOk body.audioBase64 = true)
    (hfail : extFailed ext = true) :
    handleRequest key body ext fs =
      (⟨200, fallbackResult body.language⟩, ⟨fs.counter + 1, fs.live⟩) := by
  rw [handleRequest_eq, analyze_of_extFailed ext body.language hfail,
    validateResponse_fallback]
  simp [hkey, hlang, hfmt, hb64]

theorem replyAccepted_spec (d : Jdict) (h : replyAccepted d = true) :
    ∃ c cv q, List.lookup "classification" d = some c ∧
      (c = .jstr "AI_GENERATED" ∨ c = .jstr "HUMAN") ∧
      List.lookup "confidenceScore" d = some cv ∧ pyFloat cv = some q ∧
      0 ≤ q ∧ q ≤ 1 := by
  rcases hc : List.lookup "classification" d with _ | c
  · simp [replyAccepted, hc] at h
  · simp only [replyAccepted, hc] at h
    by_cases h1 : c = .jstr "AI_GENERATED" ∨ c = .jstr "HUMAN"
    · rw [if_pos h1] at h
      rcases hcv : List.lookup "confidenceScore" d with _ | cv
      · simp [hcv] at h
      · simp only [hcv] at h
        rcases hq : pyFloat cv with _ | q
        · simp [hq] at h
        · simp only [hq] at h
          have hb := of_decide_eq_true h
          exact ⟨c, cv, q, rfl, h1, rfl, hq, hb.1, hb.2⟩
    · rw [if_neg h1] at h
      exact Bool.noConfusion h

theorem validateResponse_some_inv (d d2 : Jdict) (h : validateResponse d = some d2) :
    ∃ st lang cls cv q ex,
      strField d "status" = some st ∧ strField d "language" = some lang ∧
      strField d "classification" = some cls ∧
      List.lookup "confidenceScore" d = some cv ∧ pyFloat cv = some q ∧
      strField d "explanation" = some ex ∧
      d2 = [("status", .jstr st), ("language", .jstr lang),
            ("classification", .jstr cls), ("confidenceScore", .jnum q),
            ("explanation", .jstr ex)] := by
  simp only [validateResponse, Option.bind_eq_some, Option.some.injEq] at h
  obtain ⟨st, h1, lang, h2, cls, h3, q, ⟨cv, hcv, hq⟩, ex, h5, h6⟩ := h
  exact ⟨st, lang, cls, cv, q, ex, h1, h2, h3, hcv, hq, h5, h6.symm⟩

/-- Every response of the service is one of: the three validator
rejections, the decode rejection, the internal error from a failed
response validation, or a 200 with a validated dictionary. -/
theorem handleRequest_response_cases (key : Option String)
    (body : VoiceDetectionRequest) (ext : ExtOutcome) (fs : FS) :
    (handleRequest key body ext fs).1 = ⟨401, [("detail", .jstr "Invalid API key")]⟩ ∨
    (handleRequest key body ext fs).1 = ⟨422, [("detail", .jstr "Unsupported language")]⟩ ∨
    (handleRequest key body ext fs).1 = ⟨422, [("detail", .jstr "Only MP3 supported")]⟩ ∨
    (handleRequest key body ext fs).1 = ⟨422, [("detail", .jstr "Invalid Base64 audio")]⟩ ∨
    (handleRequest key body ext fs).1 = ⟨500, internalErrorBody⟩ ∨
    ∃ d2, validateResponse (analyze_audio_safely ext body.language) = some d2 ∧
      (handleRequest key body ext fs).1 = ⟨200, d2⟩ := by
  rw [handleRequest_eq]
  by_cases h1 : key = some VALID_API_KEY
  · by_cases h2 : body.language ∈ SUPPORTED_LANGUAGES
    · by_cases h3 : pyLower body.audioFormat = "mp3"
      · by_cases h4 : b64decodeOk body.audioBase64
        · rcases hv : validateResponse (analyze_audio_safely ext body.language)
            with _ | d2
          · simp [h1, h2, h3, h4, hv]
          · simp [h1, h2, h3, h4, hv]
        · simp [h1, h2, h3, h4]
      · simp [h1, h2, h3]
    · simp [h1, h2]
  · simp [h1]

/-! ### Claims -/

/-- C1: for every validated request (correct key, supported language, mp3
format, decodable base64), any external-classification failure — the call
raised, the reply is not parseable JSON after fence stripping, the
classification is outside the two-element set, or the confidence is
unconvertible or out of range — produces the 200 response carrying the
fixed substitute DetectionResult: status success, the declared request
language, classification HUMAN, confidenceScore 0.55, and the fixed
mixed-signal explanation.  The caller never observes the failure. -/
theorem C1_fallback_shields_external_failure (key : Option String)
    (body : VoiceDetectionRequest) (ext : ExtOutcome) (fs : FS)
    (hkey : key = some VALID_API_KEY)
    (hlang : body.language ∈ SUPPORTED_LANGUAGES)
    (hfmt : pyLower body.audioFormat = "mp3")
    (hb64 : b64decodeOk body.audioBase64 = true)
    (hfail : extFailed ext = true) :
    (handleRequest key body ext fs).1 = ⟨200, fallbackResult body.language⟩ := by
  rw [handleRequest_of_extFailed key body ext fs hkey hlang hfmt hb64 hfail]

theorem C1_fallback_shields_external_failure_witness :
    (handleRequest (some "123456") ⟨"English", "mp3", "SUQzBAAAAAAAI1RTU0U="⟩
        .raiseErr ⟨0, []⟩).1 = ⟨200, fallbackResult "English"⟩ :=
  C1_fallback_shields_external_failure (some "123456")
    ⟨"English", "mp3", "SUQzBAAAAAAAI1RTU0U="⟩ .raiseErr ⟨0, []⟩
    rfl (by decide) (by decide) (by decide) rfl

/-- C2: every 200 response of POST /api/voice-detection carries a
classification that is exactly AI_GENERATED or HUMAN and a confidenceScore
inside the closed interval [0, 1], whether it came from a validated model
reply or from the fallback. -/
theorem C2_response_invariants (key : Option String)
    (body : VoiceDetectionRequest) (ext : ExtOutcome) (fs : FS) (d : Jdict)
    (h200 : (handleRequest key body ext fs).1 = ⟨200, d⟩) :
    (List.lookup "classification" d = some (.jstr "AI_GENERATED") ∨
      List.lookup "classification" d = some (.jstr "HUMAN")) ∧
    ∃ q : ℚ, List.lookup "confidenceScore" d = some (.jnum q) ∧
      0 ≤ q ∧ q ≤ 1 := by
  have hv := handleRequest_200_inv key body ext fs d h200
  by_cases hfail : extFailed ext = true
  · rw [analyze_of_extFailed ext body.language hfail, validateResponse_fallback] at hv
    obtain rfl := Option.some.inj hv
    constructor
    · right; rfl
    · exact ⟨11 / 20, rfl, by norm_num, by norm_num⟩
  · cases ext with
    | raiseErr => exact absurd rfl hfail
    | parseFail => exact absurd rfl hfail
    | parsed dp =>
      have hacc : replyAccepted dp = true := by
        cases hra : replyAccepted dp
        · exact absurd (by simp [extFailed, hra]) hfail
        · rfl
      rw [analyze_of_accepted dp body.language hacc] at hv
      obtain ⟨st, lang, cls, cv, q, ex, h1, h2, h3, hcv, hq, h5, rfl⟩ :=
        validateResponse_some_inv dp d hv
      obtain ⟨c, cv2, q2, hc2, hcl, hcv2, hq2, hb1, hb2⟩ := replyAccepted_spec dp hacc
      have hcveq : cv = cv2 := Option.some.inj (hcv.symm.trans hcv2)
      subst hcveq
      have hqeq : q = q2 := Option.some.inj (hq.symm.trans hq2)
      subst hqeq
      constructor
      · unfold strField at h3
        rw [hc2] at h3
        rcases hcl with rfl | rfl
        · left
          simp only [Option.some.injEq] at h3
          rw [← h3]
          rfl
        · right
          simp only [Option.some.injEq] at h3
          rw [← h3]
          rfl
      · exact ⟨q, rfl, hb1, hb2⟩

theorem C2_response_invariants_witness :
    ((handleRequest (some "123456") ⟨"English", "mp3", "AAAA"⟩ .raiseErr
        ⟨0, []⟩).1 = ⟨200, fallbackResult "English"⟩) ∧
    ((List.lookup "classification" (fallbackResult "English") =
          some (.jstr "AI_GENERATED") ∨
        List.lookup "classification" (fallbackResult "English") =
          some (.jstr "HUMAN")) ∧
      ∃ q : ℚ, List.lookup "confidenceScore" (fallbackResult "English") =
          some (.jnum q) ∧ 0 ≤ q ∧ q ≤ 1) :=
  ⟨rfl, C2_response_invariants (some "123456") ⟨"English", "mp3", "AAAA"⟩
    .raiseErr ⟨0, []⟩ (fallbackResult "English") rfl⟩

/-- C3 counterexample: the 401 response for a wrong credential carries the
framework's default detail body, which lacks the status and message fields
of the uniform error shape. -/
theorem C3_counterexample_detail_body :
    (handleRequest (some "wrong") ⟨"English", "mp3", "AAAA"⟩ .raiseErr
        ⟨0, []⟩).1.code = 401 ∧
    errorShape (handleRequest (some "wrong") ⟨"English", "mp3", "AAAA"⟩ .raiseErr
        ⟨0, []⟩).1.body = false :=
  ⟨rfl, rfl⟩

/-- C3 amended: only the 500 responses produced by the registered global
exception handler have the uniform error body with status error and a
message; the 401 and 422 responses are raised as HTTPException and carry
the framework's default detail body instead. -/
theorem C3_error_body_shapes (key : Option String)
    (body : VoiceDetectionRequest) (ext : ExtOutcome) (fs : FS)
    (h : (handleRequest key body ext fs).1.code ≠ 200) :
    ((handleRequest key body ext fs).1.code = 500 ∧
      errorShape (handleRequest key body ext fs).1.body = true) ∨
    (((handleRequest key body ext fs).1.code = 401 ∨
        (handleRequest key body ext fs).1.code = 422) ∧
      ∃ m, (handleRequest key body ext fs).1.body = [("detail", .jstr m)]) := by
  rcases handleRequest_response_cases key body ext fs with
    hr | hr | hr | hr | hr | ⟨d2, _, hr⟩
  · exact Or.inr ⟨by rw [hr]; exact Or.inl rfl, "Invalid API key", by rw [hr]⟩
  · exact Or.inr ⟨by rw [hr]; exact Or.inr rfl, "Unsupported language", by rw [hr]⟩
  · exact Or.inr ⟨by rw [hr]; exact Or.inr rfl, "Only MP3 supported", by rw [hr]⟩
  · exact Or.inr ⟨by rw [hr]; exact Or.inr rfl, "Invalid Base64 audio", by rw [hr]⟩
  · exact Or.inl ⟨by rw [hr], by rw [hr]; rfl⟩
  · exact absurd (by rw [hr]) h

theorem C3_error_body_shapes_witness :
    ((handleRequest (some "wrong2") ⟨"English", "mp3", "AAAA"⟩ .raiseErr
          ⟨0, []⟩).1.code = 500 ∧
      errorShape (handleRequest (some "wrong2") ⟨"English", "mp3", "AAAA"⟩ .raiseErr
          ⟨0, []⟩).1.body = true) ∨
    (((handleRequest (some "wrong2") ⟨"English", "mp3", "AAAA"⟩ .raiseErr
            ⟨0, []⟩).1.code = 401 ∨
        (handleRequest (some "wrong2") ⟨"English", "mp3", "AAAA"⟩ .raiseErr
            ⟨0, []⟩).1.code = 422) ∧
      ∃ m, (handleRequest (some "wrong2") ⟨"English", "mp3", "AAAA"⟩ .raiseErr
          ⟨0, []⟩).1.body = [("detail", .jstr m)]) :=
  C3_error_body_shapes (some "wrong2") ⟨"English", "mp3", "AAAA"⟩ .raiseErr ⟨0, []⟩
    (by decide)

/-- C4 counterexample: a parsed reply that is valid JSON with a valid
classification and confidence but missing the status, language and
explanation fields is not replaced by the substitute result: the gateway
returns it unchanged, response validation fails, and the caller receives
the 500 internal error instead of the 200 fallback. -/
theorem C4_counterexample_missing_fields_not_fallback :
    (handleRequest (some "123456") ⟨"English", "mp3", "AAAA"⟩
        (.parsed missingFieldsReply) ⟨0, []⟩).1 = ⟨500, internalErrorBody⟩ ∧
    analyze_audio_safely (.parsed missingFieldsReply) "English" ≠
      fallbackResult "English" :=
  ⟨rfl, by decide⟩

/-- C4 amended: a parsed reply missing classification or confidenceScore
hits a KeyError inside the try block and the fallback substitute is
returned; a missing status, language or explanation field is not checked
by the gateway, so such a reply is returned as-is and fails the
response-model validation, surfacing as a 500 internal error rather than
the substitute. -/
theorem C4_missing_field_policy (key : Option String)
    (body : VoiceDetectionRequest) (d : Jdict) (fs : FS)
    (hkey : key = some VALID_API_KEY)
    (hlang : body.language ∈ SUPPORTED_LANGUAGES)
    (hfmt : pyLower body.audioFormat = "mp3")
    (hb64 : b64decodeOk body.audioBase64 = true) :
    ((List.lookup "classification" d = none ∨
        List.lookup "confidenceScore" d = none) →
      (handleRequest key body (.parsed d) fs).1 =
        ⟨200, fallbackResult body.language⟩) ∧
    (replyAccepted d = true → validateResponse d = none →
      (handleRequest key body (.parsed d) fs).1 = ⟨500, internalErrorBody⟩) := by
  constructor
  · intro hmiss
    have hra : replyAccepted d = false := by
      rcases hmiss with hm | hm
      · simp [replyAccepted, hm]
      · rcases hc : List.lookup "classification" d with _ | c
        · simp [replyAccepted, hc]
        · by_cases h1 : c = .jstr "AI_GENERATED" ∨ c = .jstr "HUMAN" <;>
            simp [replyAccepted, hc, hm, h1]
    have hfail : extFailed (.parsed d) = true := by simp [extFailed, hra]
    rw [handleRequest_of_extFailed key body _ fs hkey hlang hfmt hb64 hfail]
  · intro hacc hvalid
    rw [handleRequest_eq, analyze_of_accepted d body.language hacc, hvalid]
    simp [hkey, hlang, hfmt, hb64]

theorem C4_missing_field_policy_witness :
    (handleRequest (some "123456") ⟨"English", "mp3", "AAAA"⟩ (.parsed [])
        ⟨0, []⟩).1 = ⟨200, fallbackResult "English"⟩ :=
  (C4_missing_field_policy (some "123456") ⟨"English", "mp3", "AAAA"⟩ [] ⟨0, []⟩
      rfl (by decide) (by decide) (by decide)).1 (Or.inl rfl)

/-- C5: a missing or incorrect x-api-key always yields the 401 response,
whatever the body contains: the credential is checked before the language
and format checks, so only the Unauthorized error surfaces even when every
precondition fails at once. -/
theorem C5_unauthorized_short_circuit (key : Option String)
    (body : VoiceDetectionRequest) (ext : ExtOutcome) (fs : FS)
    (hkey : key ≠ some VALID_API_KEY) :
    handleRequest key body ext fs =
      (⟨401, [("detail", .jstr "Invalid API key")]⟩, fs) := by
  rw [handleRequest_eq]
  simp [hkey]

theorem C5_unauthorized_short_circuit_witness :
    handleRequest none ⟨"French", "wav", "not-base64!!"⟩ .raiseErr ⟨0, []⟩ =
      (⟨401, [("detail", .jstr "Invalid API key")]⟩, ⟨0, []⟩) :=
  C5_unauthorized_short_circuit none ⟨"French", "wav", "not-base64!!"⟩ .raiseErr
    ⟨0, []⟩ (by decide)

/-- C6 counterexample: an accepted classifier reply whose status field is
the string processing is returned to the caller with HTTP 200 and status
processing, not success: the gateway never checks the status field on the
success path. -/
theorem C6_counterexample_status_passthrough :
    (handleRequest (some "123456") ⟨"English", "mp3", "AAAA"⟩
        (.parsed oddStatusReply) ⟨0, []⟩).1.code = 200 ∧
    List.lookup "status" (handleRequest (some "123456") ⟨"English", "mp3", "AAAA"⟩
        (.parsed oddStatusReply) ⟨0, []⟩).1.body = some (.jstr "processing") :=
  ⟨rfl, rfl⟩

/-- C6 amended: every 200 response carries a string status field; it
equals success whenever the fallback produced the result, but on the
success path it is the model reply's status field passed through verbatim
and need not equal success. -/
theorem C6_status_field_policy (key : Option String)
    (body : VoiceDetectionRequest) (ext : ExtOutcome) (fs : FS) (d : Jdict)
    (h200 : (handleRequest key body ext fs).1 = ⟨200, d⟩) :
    ∃ s, List.lookup "status" d = some (.jstr s) ∧
      (extFailed ext = true → s = "success") ∧
      (∀ dp, ext = .parsed dp → replyAccepted dp = true →
        strField dp "status" = some s) := by
  have hv := handleRequest_200_inv key body ext fs d h200
  by_cases hfail : extFailed ext = true
  · rw [analyze_of_extFailed ext body.language hfail, validateResponse_fallback] at hv
    obtain rfl := Option.some.inj hv
    refine ⟨"success", rfl, fun _ => rfl, ?_⟩
    intro dp hdp hacc
    subst hdp
    simp [extFailed, hacc] at hfail
  · cases ext with
    | raiseErr => exact absurd rfl hfail
    | parseFail => exact absurd rfl hfail
    | parsed dp =>
      have hacc : replyAccepted dp = true := by
        cases hra : replyAccepted dp
        · exact absurd (by simp [extFailed, hra]) hfail
        · rfl
      rw [analyze_of_accepted dp body.language hacc] at hv
      obtain ⟨st, lang, cls, cv, q, ex, h1, h2, h3, hcv, hq, h5, rfl⟩ :=
        validateResponse_some_inv dp d hv
      refine ⟨st, rfl, fun hf => absurd hf hfail, ?_⟩
      intro dp2 hdp2 _
      cases hdp2
      exact h1

theorem C6_status_field_policy_witness :
    ∃ s, List.lookup "status" (fallbackResult "English") = some (.jstr s) ∧
      (extFailed .raiseErr = true → s = "success") ∧
      (∀ dp, ExtOutcome.raiseErr = .parsed dp → replyAccepted dp = true →
        strField dp "status" = some s) :=
  C6_status_field_policy (some "123456") ⟨"English", "mp3", "AAAA"⟩ .raiseErr
    ⟨0, []⟩ (fallbackResult "English") rfl

/-- C7: with valid credential, supported language and mp3 format, an
audio payload on which base64.b64decode raises yields the 422 response for
every classifier behavior, before any temporary file is created and before
the external classifier is invoked; the failure is not absorbed into the
fallback. -/
theorem C7_invalid_base64_rejected (key : Option String)
    (body : VoiceDetectionRequest) (ext : ExtOutcome) (fs : FS)
    (hkey : key = some VALID_API_KEY)
    (hlang : body.language ∈ SUPPORTED_LANGUAGES)
    (hfmt : pyLower body.audioFormat = "mp3")
    (hb64 : b64decodeOk body.audioBase64 = false) :
    handleRequest key body ext fs =
      (⟨422, [("detail", .jstr "Invalid Base64 audio")]⟩, fs) := by
  rw [handleRequest_eq]
  simp [hkey, hlang, hfmt, hb64]

theorem C7_invalid_base64_rejected_witness :
    handleRequest (some "123456") ⟨"English", "mp3", "not-base64!!"⟩ .raiseErr
        ⟨0, []⟩ =
      (⟨422, [("detail", .jstr "Invalid Base64 audio")]⟩, ⟨0, []⟩) :=
  C7_invalid_base64_rejected (some "123456") ⟨"English", "mp3", "not-base64!!"⟩
    .raiseErr ⟨0, []⟩ rfl (by decide) (by decide) (by decide)

/-- C8: for every request that passes the credential, language and format
checks, the set of live temporary files after the request equals the one
before it on every exit path (decode failure, fallback, success), and the
cleanup helper never propagates an error: when os.remove raises, cleanup
swallows the exception and leaves the filesystem unchanged. -/
theorem C8_temp_file_released (key : Option String)
    (body : VoiceDetectionRequest) (ext : ExtOutcome) (fs : FS)
    (hkey : key = some VALID_API_KEY)
    (hlang : body.language ∈ SUPPORTED_LANGUAGES)
    (hfmt : pyLower body.audioFormat = "mp3") :
    (handleRequest key body ext fs).2.live = fs.live ∧
    ∀ p g, os_remove p g = .error "FileNotFoundError" → cleanup p g = g := by
  constructor
  · rw [handleRequest_eq]
    by_cases h4 : b64decodeOk body.audioBase64
    · rcases hv : validateResponse (analyze_audio_safely ext body.language)
        with _ | d2 <;> simp [hkey, hlang, hfmt, h4, hv]
    · simp [hkey, hlang, hfmt, h4]
  · intro p g hrem
    unfold cleanup
    rw [hrem]

theorem C8_temp_file_released_witness :
    ((handleRequest (some "123456") ⟨"English", "mp3", "AAAA"⟩ .raiseErr
        ⟨5, [3]⟩).2.live = [3]) ∧
    (∀ p g, os_remove p g = .error "FileNotFoundError" → cleanup p g = g) :=
  C8_temp_file_released (some "123456") ⟨"English", "mp3", "AAAA"⟩ .raiseErr
    ⟨5, [3]⟩ rfl (by decide) (by decide)

/-- C10: the language of a 200 response is guaranteed to equal the
declared request language only on the fallback path; on the success path
the model reply's language field is returned verbatim with no comparison
against the declared language, so an accepted reply may carry any language
string. -/
theorem C10_language_passthrough (key : Option String)
    (body : VoiceDetectionRequest) (dp : Jdict) (fs : FS) (d2 : Jdict)
    (hkey : key = some VALID_API_KEY)
    (hlang : body.language ∈ SUPPORTED_LANGUAGES)
    (hfmt : pyLower body.audioFormat = "mp3")
    (hb64 : b64decodeOk body.audioBase64 = true)
    (hacc : replyAccepted dp = true)
    (hval : validateResponse dp = some d2) :
    (handleRequest key body (.parsed dp) fs).1 = ⟨200, d2⟩ ∧
    strField d2 "language" = strField dp "language" ∧
    (∀ ext, extFailed ext = true →
      strField (handleRequest key body ext fs).1.body "language" =
        some body.language) := by
  refine ⟨?_, ?_, ?_⟩
  · rw [handleRequest_eq, analyze_of_accepted dp body.language hacc, hval]
    simp [hkey, hlang, hfmt, hb64]
  · obtain ⟨st, lang, cls, cv, q, ex, h1, h2, h3, hcv, hq, h5, rfl⟩ :=
      validateResponse_some_inv dp d2 hval
    rw [h2]
    rfl
  · intro ext hfail
    rw [handleRequest_of_extFailed key body ext fs hkey hlang hfmt hb64 hfail]
    rfl

theorem C10_language_passthrough_witness :
    ((handleRequest (some "123456") ⟨"English", "mp3", "AAAA"⟩ (.parsed frenchReply)
          ⟨0, []⟩).1 = ⟨200, frenchReply⟩ ∧
      strField frenchReply "language" = strField frenchReply "language" ∧
      (∀ ext, extFailed ext = true →
        strField (handleRequest (some "123456") ⟨"English", "mp3", "AAAA"⟩ ext
            ⟨0, []⟩).1.body "language" = some "English")) ∧
    strField frenchReply "language" = some "French" :=
  ⟨C10_language_passthrough (some "123456") ⟨"English", "mp3", "AAAA"⟩ frenchReply
      ⟨0, []⟩ frenchReply rfl (by decide) (by decide) (by decide) (by decide) rfl,
    rfl⟩

end VoiceAPI
